import Mathlib

/-!
Verification of the Wake-on-LAN game-server proxy.

This file is a shallow embedding of the proxy's core logic:
the coordinator state machine (`proxy_manager.py`), the wake emitter
(`wol_sender.py`), the liveness prober (`server_monitor.py`), the
Protocol-A packet codec (`minecraft_handler.py`) and the Protocol-B UDP
handler (`satisfactory_handler.py`).  Machine integers are modelled as
`Nat`; sockets, subprocesses and the event loop are modelled by explicit
outcome oracles and effect traces.
-/

namespace WolProxy

/-- Proxy operational states (`ProxyState` in `proxy_manager.py`). -/
inductive ProxyState where
  | offline
  | waking
  | starting
  | proxying
  | stopping
deriving DecidableEq, Repr

/-- Server health states reported by the monitor (`ServerState` in `server_monitor.py`). -/
inductive ServerState where
  | offline
  | starting
  | online
  | unknown
deriving DecidableEq, Repr

/-- Observable side effects of coordinator transitions: the entry actions of
`_enter_*_state` (IP bind/release, forwarding toggles, ARP refresh) and the
invocation of the registered state-change callbacks. -/
inductive Effect where
  | bindIp
  | releaseIp
  | refreshArp
  | enableForwarding
  | disableForwarding
  | stateChangeCallback (old new : ProxyState)
deriving DecidableEq, Repr

/-- Coordinator state: `ProxyManager.current_state`, `state_change_time`, the
statistics counters of `ProxyManager.stats`, the Protocol-B handler's
`forwarding_active` flag and the IP manager's `ip_bound` flag.  The model
covers the configuration in which the Protocol-B (Satisfactory) handler is
enabled, and models the privileged `ip addr` helper as succeeding. -/
structure Coord where
  currentState : ProxyState
  stateChangeTime : Nat
  wakeAttempts : Nat
  successfulWakes : Nat
  minecraftConnections : Nat
  satisfactoryConnections : Nat
  stateTransitions : Nat
  lastWakeTime : Option Nat
  forwardingActive : Bool
  ipBound : Bool
deriving DecidableEq, Repr

/-- `_enter_offline_state`: bind the IP, disable forwarding. -/
def enterOfflineState (s : Coord) : Coord × List Effect :=
  ({ s with ipBound := true, forwardingActive := false },
   [.bindIp, .disableForwarding])

/-- `_enter_waking_state`: keep the IP bound, disable forwarding. -/
def enterWakingState (s : Coord) : Coord × List Effect :=
  ({ s with forwardingActive := false }, [.disableForwarding])

/-- `_enter_starting_state`: keep the IP bound, disable forwarding. -/
def enterStartingState (s : Coord) : Coord × List Effect :=
  ({ s with forwardingActive := false }, [.disableForwarding])

/-- `_enter_proxying_state`: release the IP, enable forwarding, refresh ARP. -/
def enterProxyingState (s : Coord) : Coord × List Effect :=
  ({ s with ipBound := false, forwardingActive := true },
   [.releaseIp, .enableForwarding, .refreshArp])

/-- `_enter_stopping_state`: only logs; no entry action is performed. -/
def enterStoppingState (s : Coord) : Coord × List Effect :=
  (s, [])

/-- `ProxyManager._transition_to_state`.  A request for the state the
coordinator is already in returns immediately; otherwise the state, its
change time and the transition counter are updated, the entry action of the
new state runs, and the state-change callbacks are invoked with
`(old, new)`. -/
def transitionToState (s : Coord) (t : Nat) (newState : ProxyState) :
    Coord × List Effect :=
  if newState = s.currentState then (s, [])
  else
    let old := s.currentState
    let s1 : Coord :=
      { s with currentState := newState, stateChangeTime := t,
               stateTransitions := s.stateTransitions + 1 }
    let entered : Coord × List Effect :=
      match newState with
      | .offline => enterOfflineState s1
      | .waking => enterWakingState s1
      | .starting => enterStartingState s1
      | .proxying => enterProxyingState s1
      | .stopping => enterStoppingState s1
    (entered.1, entered.2 ++ [.stateChangeCallback old newState])

/-- `ProxyManager._on_server_state_change`: the monitor's health-transition
callback.  Online while Starting moves to Proxying; Offline while Proxying
moves to Offline; every other combination is ignored. -/
def onServerStateChange (s : Coord) (t : Nat)
    (oldState newState : ServerState) : Coord × List Effect :=
  if newState = ServerState.online ∧ s.currentState = ProxyState.starting then
    transitionToState s t .proxying
  else if newState = ServerState.offline ∧ s.currentState = ProxyState.proxying then
    transitionToState s t .offline
  else (s, [])

/-- A coordinator just after startup: Offline, IP bound, all counters zero. -/
def initCoord : Coord :=
  { currentState := .offline, stateChangeTime := 0, wakeAttempts := 0,
    successfulWakes := 0, minecraftConnections := 0,
    satisfactoryConnections := 0, stateTransitions := 0, lastWakeTime := none,
    forwardingActive := false, ipBound := true }

/-- A coordinator sitting in the Starting state. -/
def startingCoord : Coord :=
  { currentState := .starting, stateChangeTime := 2, wakeAttempts := 1,
    successfulWakes := 0, minecraftConnections := 1,
    satisfactoryConnections := 0, stateTransitions := 2, lastWakeTime := some 1,
    forwardingActive := false, ipBound := true }

/-- C1 counterexample: with the coordinator Offline, a health event reporting
the host Online leaves the state Offline — the coordinator does not perform
the claimed defensive Offline→Proxying transition. -/
theorem onlineEventInOfflineIsIgnored :
    (onServerStateChange initCoord 5 .offline .online).1.currentState ≠
      ProxyState.proxying ∧
    onServerStateChange initCoord 5 .offline .online = (initCoord, []) := by
  decide

/-- C1 (amended): a health event reporting the host Online transitions the
coordinator to Proxying exactly when the current state is Starting; in
Offline or Waking the event is ignored and the coordinator is unchanged. -/
theorem onlineEventTransitions (s : Coord) (t : Nat) (old : ServerState) :
    (s.currentState = .starting →
      (onServerStateChange s t old .online).1.currentState = .proxying) ∧
    (s.currentState = .offline ∨ s.currentState = .waking →
      onServerStateChange s t old .online = (s, [])) := by
  constructor
  · intro h
    simp [onServerStateChange, h, transitionToState, enterProxyingState]
  · rintro (h | h) <;> simp [onServerStateChange, h]

/-- C1 witness: evaluating the amended statement at the Starting and Offline
sample coordinators. -/
theorem onlineEventTransitionsWitness :
    (onServerStateChange startingCoord 3 .offline .online).1.currentState =
      ProxyState.proxying ∧
    onServerStateChange initCoord 3 .offline .online = (initCoord, []) :=
  ⟨(onlineEventTransitions startingCoord 3 .offline).1 rfl,
   (onlineEventTransitions initCoord 3 .offline).2 (Or.inl rfl)⟩

/-- `WoLSender._create_magic_packet`: six `0xFF` bytes followed by the six
MAC bytes repeated sixteen times. -/
def createMagicPacket (macBytes : List Nat) : List Nat :=
  List.replicate 6 0xff ++ (List.replicate 16 macBytes).flatten

/-- A dotted-quad IPv4 address as its 32-bit value. -/
def ipQuad (a b c d : Nat) : Nat :=
  ((a * 256 + b) * 256 + c) * 256 + d

/-- Broadcast address of `ip/mask` as computed by `ipaddress.IPv4Interface`:
the network address (the IP with its `32 - mask` host bits cleared) with all
host bits set. -/
def ipv4BroadcastAddress (ip : Nat) (mask : Nat) : Nat :=
  ip / 2 ^ (32 - mask) * 2 ^ (32 - mask) + (2 ^ (32 - mask) - 1)

/-- `WoLSender._get_broadcast_address`: derive the directed broadcast of
`target_ip/network_mask`.  `IPv4Interface` raises `ValueError` on a prefix
length outside `[0, 32]`, in which case the code falls back to the limited
broadcast `255.255.255.255`. -/
def getBroadcastAddress (ip : Nat) (mask : Int) : Nat :=
  if 0 ≤ mask ∧ mask ≤ 32 then ipv4BroadcastAddress ip mask.toNat
  else ipQuad 255 255 255 255

/-- The standard WoL ports tried for every destination (`send_wol_packet`). -/
def wolPorts : List Nat := [9, 7]

/-- The ordered destination set of `send_wol_packet`: calculated broadcast,
target IP and global broadcast, deduplicated keeping first occurrences (the
Python dict keyed by IP). -/
def wolDestinations (broadcastIp targetIp : String) : List String :=
  [broadcastIp, targetIp, "255.255.255.255"].eraseDups

/-- `WoLSender.send_wol_packet`: one fan-out of the magic packet.  The send
outcome of each `(destination, port)` pair is given by the oracle `sendOk`;
the round succeeds iff at least one pair succeeded. -/
def sendWolPacket (sendOk : String → Nat → Bool)
    (broadcastIp targetIp : String) : Bool :=
  (wolDestinations broadcastIp targetIp).any fun dest =>
    wolPorts.any fun port => sendOk dest port

/-- `WoLSender.wake_server_with_retry`: retry the whole fan-out up to
`maxRetries` times (the oracle takes the attempt index first), returning
success on the first successful round. -/
def wakeServerWithRetry (sendOk : Nat → String → Nat → Bool)
    (broadcastIp targetIp : String) (maxRetries : Nat) : Bool :=
  (List.range maxRetries).any fun attempt =>
    sendWolPacket (sendOk attempt) broadcastIp targetIp

/-- `ProxyManager._wake_server`: refuse unless Offline; count the wake
attempt, record its time, transition to Waking, run the wake emitter with
three retries, then transition to Starting on success or revert to Offline
on failure.  Returns the updated coordinator, the effect trace and the
success flag. -/
def wakeServer (s : Coord) (t : Nat) (sendOk : Nat → String → Nat → Bool)
    (broadcastIp targetIp : String) : Coord × List Effect × Bool :=
  if s.currentState ≠ ProxyState.offline then (s, [], false)
  else
    let s1 : Coord :=
      { s with wakeAttempts := s.wakeAttempts + 1, lastWakeTime := some t }
    let w := transitionToState s1 t .waking
    if wakeServerWithRetry sendOk broadcastIp targetIp 3 then
      let st := transitionToState w.1 t .starting
      (st.1, w.2 ++ st.2, true)
    else
      let off := transitionToState w.1 t .offline
      (off.1, w.2 ++ off.2, false)

/-- If every individual send fails, a whole fan-out round fails. -/
theorem sendWolPacket_allFail (sendOk : String → Nat → Bool)
    (broadcastIp targetIp : String) (h : ∀ d p, sendOk d p = false) :
    sendWolPacket sendOk broadcastIp targetIp = false := by
  simp [sendWolPacket, h]

/-- If every individual send of every round fails, the retried wake fails. -/
theorem wakeServerWithRetry_allFail (sendOk : Nat → String → Nat → Bool)
    (broadcastIp targetIp : String) (n : Nat)
    (h : ∀ i d p, sendOk i d p = false) :
    wakeServerWithRetry sendOk broadcastIp targetIp n = false := by
  simp [wakeServerWithRetry, sendWolPacket, h]

/-- Each 6-byte chunk of sixteen concatenated copies of a 6-byte MAC equals
the MAC. -/
theorem flattenReplicateChunk (mac : List Nat) (h : mac.length = 6) :
    ∀ n k, k < n →
      ((List.replicate n mac).flatten.drop (6 * k)).take 6 = mac := by
  intro n
  induction n with
  | zero => intro k hk; omega
  | succ m ih =>
    intro k hk
    rw [List.replicate_succ, List.flatten_cons]
    cases k with
    | zero => rw [Nat.mul_zero, List.drop_zero, List.take_left' h]
    | succ j =>
      rw [List.drop_append_eq_append_drop,
        List.drop_eq_nil_of_le (by omega), List.nil_append, h,
        show 6 * (j + 1) - 6 = 6 * j by omega]
      exact ih j (by omega)

/-- C7: for a 6-byte MAC the magic frame is exactly 102 bytes, starts with
six `0xFF` bytes, and each of the sixteen following 6-byte chunks equals the
MAC. -/
theorem magicPacketSpec (mac : List Nat) (h : mac.length = 6) :
    (createMagicPacket mac).length = 102 ∧
    (createMagicPacket mac).take 6 = List.replicate 6 0xff ∧
    ∀ k, k < 16 → ((createMagicPacket mac).drop (6 + 6 * k)).take 6 = mac := by
  refine ⟨?_, ?_, ?_⟩
  · simp [createMagicPacket, List.length_flatten, List.map_replicate,
      List.sum_replicate, h]
  · exact List.take_left' (by simp)
  · intro k hk
    unfold createMagicPacket
    rw [List.drop_append_eq_append_drop,
      List.drop_eq_nil_of_le (by simp), List.nil_append,
      show 6 + 6 * k - (List.replicate 6 (0xff : Nat)).length = 6 * k by simp]
    exact flattenReplicateChunk mac h 16 k hk

/-- C7 witness: the magic frame of a sample MAC. -/
theorem magicPacketSpecWitness :
    (createMagicPacket [0xaa, 0xbb, 0xcc, 0xdd, 0xee, 0xff]).length = 102 ∧
    (createMagicPacket [0xaa, 0xbb, 0xcc, 0xdd, 0xee, 0xff]).take 6 =
      List.replicate 6 0xff ∧
    ∀ k, k < 16 →
      ((createMagicPacket [0xaa, 0xbb, 0xcc, 0xdd, 0xee, 0xff]).drop
        (6 + 6 * k)).take 6 = [0xaa, 0xbb, 0xcc, 0xdd, 0xee, 0xff] :=
  magicPacketSpec [0xaa, 0xbb, 0xcc, 0xdd, 0xee, 0xff] (by decide)

/-- C8: the directed broadcast of `192.168.1.100/24` is `192.168.1.255`,
that of `10.0.0.50/16` is `10.0.255.255`, and every invalid prefix length
falls back to the limited broadcast `255.255.255.255`. -/
theorem broadcastDerivation :
    getBroadcastAddress (ipQuad 192 168 1 100) 24 = ipQuad 192 168 1 255 ∧
    getBroadcastAddress (ipQuad 10 0 0 50) 16 = ipQuad 10 0 255 255 ∧
    ∀ mask : Int, ¬(0 ≤ mask ∧ mask ≤ 32) → ∀ ip : Nat,
      getBroadcastAddress ip mask = ipQuad 255 255 255 255 := by
  refine ⟨by decide, by decide, ?_⟩
  intro mask hm ip
  simp [getBroadcastAddress, hm]

/-- C8 witness: a mask of 33 is invalid and falls back to the limited
broadcast. -/
theorem broadcastDerivationWitness :
    getBroadcastAddress (ipQuad 192 168 1 100) 33 = ipQuad 255 255 255 255 :=
  broadcastDerivation.2.2 33 (by decide) (ipQuad 192 168 1 100)

/-- The loop of `PacketBuffer.read_varint`: read bytes little-endian,
7 payload bits each, MSB as continuation marker.  Returns the decoded value
and the position just past the encoding; `none` models the `ValueError`
raised on buffer underrun or when a fifth continuation-marked byte pushes
the shift to 32 or beyond ("VarInt too long"). -/
def readVarintGo (data : List Nat) (pos value position : Nat) :
    Option (Nat × Nat) :=
  match data[pos]? with
  | none => none
  | some byte =>
    if byte &&& 0x80 = 0 then
      some (value ||| (byte &&& 0x7f) <<< position, pos + 1)
    else if position + 7 ≥ 32 then none
    else readVarintGo data (pos + 1)
      (value ||| (byte &&& 0x7f) <<< position) (position + 7)
termination_by 32 - position
decreasing_by omega

/-- `PacketBuffer.read_varint`, reading at `pos` in `data`. -/
def read_varint (data : List Nat) (pos : Nat) : Option (Nat × Nat) :=
  readVarintGo data pos 0 0

/-- The byte-emitting loop of `PacketBuffer.write_varint` on a non-negative
value: emit the low 7 bits per byte, setting the continuation bit whenever
more bits remain. -/
def writeVarintNat (value : Nat) : List Nat :=
  if value >>> 7 = 0 then [value &&& 0x7f]
  else (value &&& 0x7f ||| 0x80) :: writeVarintNat (value >>> 7)
termination_by value
decreasing_by
  rename_i h
  rw [Nat.shiftRight_eq_div_pow] at h ⊢
  norm_num at h ⊢
  omega

/-- `PacketBuffer.write_varint`: negative values are rejected
(`ValueError: VarInt cannot be negative`). -/
def write_varint (value : Int) : Option (List Nat) :=
  if value < 0 then none else some (writeVarintNat value.toNat)

/-- Unfolding the read loop when the byte at `pos` exists. -/
theorem readVarintGo_some {data : List Nat} {pos byte : Nat}
    (value position : Nat) (h : data[pos]? = some byte) :
    readVarintGo data pos value position =
      if byte &&& 0x80 = 0 then
        some (value ||| (byte &&& 0x7f) <<< position, pos + 1)
      else if position + 7 ≥ 32 then none
      else readVarintGo data (pos + 1)
        (value ||| (byte &&& 0x7f) <<< position) (position + 7) := by
  rw [readVarintGo, h]

/-- Disjoint bitwise OR is addition: OR-ing `m` shifted past `v`'s bits. -/
theorem lor_shiftLeft_eq_add {v p : Nat} (m : Nat) (hv : v < 2 ^ p) :
    v ||| m <<< p = v + m * 2 ^ p := by
  rw [Nat.shiftLeft_eq, Nat.lor_comm, Nat.mul_comm m (2 ^ p),
    ← Nat.mul_add_lt_is_or hv, Nat.add_comm]

/-- Masking with `0x7f` is reduction modulo 128. -/
theorem and_127_eq_mod (x : Nat) : x &&& 0x7f = x % 128 := by
  have h := Nat.and_pow_two_sub_one_eq_mod x 7
  norm_num at h
  exact h

/-- A value below 128 has a clear continuation bit. -/
theorem and_128_eq_zero {x : Nat} (hx : x < 128) : x &&& 0x80 = 0 := by
  have hx7 : x < 2 ^ 7 := by norm_num; omega
  have h := Nat.and_two_pow x 7
  rw [Nat.testBit_lt_two_pow hx7] at h
  norm_num at h
  exact h

/-- Masking a continuation-marked byte recovers its 7 payload bits. -/
theorem contByte_and_127 (x : Nat) (hx : x < 128) :
    (x ||| 0x80) &&& 0x7f = x := by
  rw [Nat.and_distrib_right, and_127_eq_mod, Nat.mod_eq_of_lt hx,
    (by decide : (0x80 : Nat) &&& 0x7f = 0), Nat.or_zero]

/-- A continuation-marked byte has its continuation bit set. -/
theorem contByte_and_128 (x : Nat) (hx : x < 128) :
    (x ||| 0x80) &&& 0x80 = 0x80 := by
  rw [Nat.and_distrib_right, and_128_eq_zero hx,
    (by decide : (0x80 : Nat) &&& 0x80 = 0x80), Nat.zero_or]

/-- Reading back what the writer produced, generalized over the read loop's
accumulator, shift and buffer position. -/
theorem readVarintGo_write : ∀ n position value pos data rest,
    data.drop pos = writeVarintNat n ++ rest →
    position % 7 = 0 → position ≤ 28 → n < 2 ^ (35 - position) →
    value < 2 ^ position →
    readVarintGo data pos value position =
      some (value + n * 2 ^ position, pos + (writeVarintNat n).length) := by
  intro n
  induction n using Nat.strong_induction_on with
  | _ n ih =>
    intro position value pos data rest hdrop hp7 hp28 hn hv
    rw [writeVarintNat] at hdrop ⊢
    have hbyte : ∀ b tail, data.drop pos = b :: tail →
        data[pos]? = some b ∧ data.drop (pos + 1) = tail := by
      intro b tail htail
      refine ⟨?_, ?_⟩
      · have h0 : (data.drop pos)[0]? = some b := by rw [htail]; simp
        rwa [List.getElem?_drop, Nat.add_zero] at h0
      · have h1 : (data.drop pos).drop 1 = tail := by rw [htail]; simp
        rwa [List.drop_drop] at h1
    by_cases hz : n >>> 7 = 0
    · rw [if_pos hz] at hdrop ⊢
      have hn128 : n < 128 := by
        rw [Nat.shiftRight_eq_div_pow] at hz
        norm_num at hz
        omega
      rw [List.cons_append, List.nil_append] at hdrop
      obtain ⟨hget, -⟩ := hbyte _ _ hdrop
      rw [readVarintGo_some value position hget]
      have hb : n &&& 0x7f = n := by
        rw [and_127_eq_mod, Nat.mod_eq_of_lt hn128]
      rw [hb, if_pos (and_128_eq_zero hn128), hb, lor_shiftLeft_eq_add n hv]
      simp
    · rw [if_neg hz] at hdrop ⊢
      have hmask : n &&& 0x7f < 128 := by rw [and_127_eq_mod]; omega
      rw [List.cons_append] at hdrop
      obtain ⟨hget, htail⟩ := hbyte _ _ hdrop
      rw [readVarintGo_some value position hget,
        contByte_and_127 _ hmask, contByte_and_128 _ hmask]
      have hpos21 : position ≤ 21 := by
        rcases Nat.lt_or_ge position 28 with h | h
        · omega
        · exfalso
          have hpe : position = 28 := by omega
          rw [hpe] at hn
          rw [Nat.shiftRight_eq_div_pow] at hz
          norm_num at hn hz
          omega
      rw [if_neg (by norm_num), if_neg (by omega)]
      have hvlt : value ||| (n &&& 0x7f) <<< position < 2 ^ (position + 7) := by
        rw [and_127_eq_mod, lor_shiftLeft_eq_add _ hv]
        have hle : n % 128 * 2 ^ position ≤ 127 * 2 ^ position :=
          Nat.mul_le_mul_right _ (by omega)
        have hp : 2 ^ (position + 7) = 2 ^ position * 128 := by
          rw [pow_add]; norm_num
        omega
      have hrec := ih (n >>> 7)
        (by rw [Nat.shiftRight_eq_div_pow]
            norm_num
            omega)
        (position + 7) (value ||| (n &&& 0x7f) <<< position) (pos + 1) data rest
        htail (by omega) (by omega)
        (by rw [Nat.shiftRight_eq_div_pow]
            rw [Nat.div_lt_iff_lt_mul (by norm_num)]
            calc n < 2 ^ (35 - position) := hn
              _ ≤ 2 ^ (35 - (position + 7)) * 2 ^ 7 := by
                  rw [← pow_add]
                  exact Nat.pow_le_pow_right (by norm_num) (by omega))
        hvlt
      rw [hrec]
      have harith : (value ||| (n &&& 0x7f) <<< position) +
          n >>> 7 * 2 ^ (position + 7) = value + n * 2 ^ position := by
        rw [and_127_eq_mod, lor_shiftLeft_eq_add _ hv,
          Nat.shiftRight_eq_div_pow]
        have hkey : n % 128 + n / 128 * 128 = n := Nat.mod_add_div' n 128
        have hp : (2 : Nat) ^ 7 = 128 := by norm_num
        calc value + n % 128 * 2 ^ position + n / 2 ^ 7 * 2 ^ (position + 7)
            = value + (n % 128 + n / 128 * 128) * 2 ^ position := by
              rw [hp, pow_add, hp]; ring
          _ = value + n * 2 ^ position := by rw [hkey]
      rw [harith]
      simp only [Option.some.injEq, Prod.mk.injEq, List.length_cons, true_and]
      omega

/-- The writer emits at most `k` bytes for values below `2 ^ (7 * k)`. -/
theorem writeVarintNat_length : ∀ k n, 0 < k → n < 2 ^ (7 * k) →
    (writeVarintNat n).length ≤ k := by
  intro k
  induction k with
  | zero => intro n h; omega
  | succ m ih =>
    intro n _ hn
    rw [writeVarintNat]
    by_cases hz : n >>> 7 = 0
    · rw [if_pos hz]
      simp
    · rw [if_neg hz]
      simp only [List.length_cons]
      have hm : 0 < m := by
        by_contra h0
        have hm0 : m = 0 := by omega
        subst hm0
        rw [Nat.shiftRight_eq_div_pow] at hz
        norm_num at hn hz
        omega
      have hlt : n >>> 7 < 2 ^ (7 * m) := by
        rw [Nat.shiftRight_eq_div_pow, Nat.div_lt_iff_lt_mul (by norm_num)]
        calc n < 2 ^ (7 * (m + 1)) := hn
          _ ≤ 2 ^ (7 * m) * 2 ^ 7 := by
              rw [← pow_add]
              exact Nat.pow_le_pow_right (by norm_num) (by omega)
      have := ih (n >>> 7) hm hlt
      omega

/-- The read loop rejects when the next `m + 1` bytes all carry the
continuation bit and the last of them lands on shift 28. -/
theorem readVarintGo_allCont (data : List Nat) :
    ∀ m pos value position, position + 7 * m = 28 →
    (∀ i, i ≤ m → ∃ b, data[pos + i]? = some b ∧ b &&& 0x80 ≠ 0) →
    readVarintGo data pos value position = none := by
  intro m
  induction m with
  | zero =>
    intro pos value position hp hbytes
    obtain ⟨b, hget, hcont⟩ := hbytes 0 (Nat.le_refl 0)
    rw [Nat.add_zero] at hget
    rw [readVarintGo_some value position hget, if_neg hcont,
      if_pos (by omega)]
  | succ m ih =>
    intro pos value position hp hbytes
    obtain ⟨b, hget, hcont⟩ := hbytes 0 (Nat.zero_le _)
    rw [Nat.add_zero] at hget
    rw [readVarintGo_some value position hget, if_neg hcont,
      if_neg (by omega)]
    refine ih (pos + 1) _ (position + 7) (by omega) ?_
    intro i hi
    have h := hbytes (i + 1) (by omega)
    rwa [show pos + (i + 1) = pos + 1 + i by omega] at h

/-- C6: for every `n` in `[0, 2^31 − 1]`, writing `n` as a VarInt and
reading it back yields `n` and the encoding is at most 5 bytes; a buffer
whose first five bytes all carry the continuation bit is rejected; writing
a negative value is rejected. -/
theorem varintRoundTrip :
    (∀ n : Nat, n < 2 ^ 31 →
      write_varint (n : Int) = some (writeVarintNat n) ∧
      (writeVarintNat n).length ≤ 5 ∧
      read_varint (writeVarintNat n) 0 =
        some (n, (writeVarintNat n).length)) ∧
    (∀ data : List Nat,
      (∀ i, i ≤ 4 → ∃ b, data[i]? = some b ∧ b &&& 0x80 ≠ 0) →
      read_varint data 0 = none) ∧
    (∀ v : Int, v < 0 → write_varint v = none) := by
  refine ⟨?_, ?_, ?_⟩
  · intro n hn
    refine ⟨?_, ?_, ?_⟩
    · rw [write_varint, if_neg (by exact not_lt.mpr (Int.natCast_nonneg n))]
      simp
    · exact writeVarintNat_length 5 n (by norm_num)
        (lt_of_lt_of_le hn (by norm_num))
    · have h := readVarintGo_write n 0 0 0 (writeVarintNat n) []
        (by simp) (by norm_num) (by norm_num)
        (by norm_num; exact lt_of_lt_of_le hn (by norm_num)) (by norm_num)
      rw [read_varint]
      simpa using h
  · intro data h
    refine readVarintGo_allCont data 4 0 0 0 (by norm_num) ?_
    intro i hi
    simpa using h i hi
  · intro v hv
    rw [write_varint, if_pos hv]

/-- C6 witness: the law evaluated at 300, a five-continuation-byte buffer
and the write of `-1`. -/
theorem varintRoundTripWitness :
    (write_varint ((300 : Nat) : Int) = some (writeVarintNat 300) ∧
      (writeVarintNat 300).length ≤ 5 ∧
      read_varint (writeVarintNat 300) 0 =
        some (300, (writeVarintNat 300).length)) ∧
    read_varint [0x80, 0x80, 0x80, 0x80, 0x80, 0] 0 = none ∧
    write_varint (-1) = none :=
  ⟨varintRoundTrip.1 300 (by norm_num),
   varintRoundTrip.2.1 [0x80, 0x80, 0x80, 0x80, 0x80, 0]
     (fun i hi => by interval_cases i <;> exact ⟨0x80, rfl, by decide⟩),
   varintRoundTrip.2.2 (-1) (by norm_num)⟩

/-- Lowercase hexadecimal digit codepoint of a nibble. -/
def hexDigit (n : Nat) : Nat :=
  if n < 10 then 48 + n else 87 + n

/-- The `\uXXXX` escape of a codepoint below `0x10000`, as codepoints. -/
def uEscape (c : Nat) : List Nat :=
  [92, 117, hexDigit (c / 4096 % 16), hexDigit (c / 256 % 16),
   hexDigit (c / 16 % 16), hexDigit (c % 16)]

/-- Per-codepoint escaping of `json.dumps` (default `ensure_ascii=True`):
named escapes for quote, backslash and the usual control characters,
`\u00xx` for the remaining control characters, printable ASCII verbatim,
and every codepoint outside `0x20..0x7e` escaped as `\uXXXX`, with
surrogate pairs above `0xFFFF`. -/
def jsonEscapeChar (c : Nat) : List Nat :=
  if c = 34 then [92, 34]
  else if c = 92 then [92, 92]
  else if c = 8 then [92, 98]
  else if c = 9 then [92, 116]
  else if c = 10 then [92, 110]
  else if c = 12 then [92, 102]
  else if c = 13 then [92, 114]
  else if c < 32 then uEscape c
  else if c < 127 then [c]
  else if c < 65536 then uEscape c
  else uEscape (55296 + (c - 65536) / 1024) ++ uEscape (56320 + (c - 65536) % 1024)

/-- `json.dumps` of the one-key object mapping `"text"` to the string of
codepoints `s`, with the default separators: the nine codepoints of
`\x7b"text": ` then the quoted escaped string then the closing `\x7d`. -/
def jsonDumpsText (s : List Nat) : List Nat :=
  [123, 34, 116, 101, 120, 116, 34, 58, 32, 34] ++
    (s.map jsonEscapeChar).flatten ++ [34, 125]

/-- UTF-8 encoding of one unicode codepoint (`str.encode("utf-8")`). -/
def utf8EncodeChar (c : Nat) : List Nat :=
  if c < 128 then [c]
  else if c < 2048 then [192 + c / 64, 128 + c % 64]
  else if c < 65536 then [224 + c / 4096, 128 + c / 64 % 64, 128 + c % 64]
  else [240 + c / 262144, 128 + c / 4096 % 64, 128 + c / 64 % 64, 128 + c % 64]

/-- UTF-8 encoding of a codepoint string. -/
def utf8Encode (s : List Nat) : List Nat :=
  (s.map utf8EncodeChar).flatten

/-- `PacketBuffer.write_string`: the VarInt byte length of the UTF-8
encoding followed by the encoded bytes.  (The written length is a `Nat`,
so the writer's negative check never fires.) -/
def write_string (s : List Nat) : List Nat :=
  writeVarintNat (utf8Encode s).length ++ utf8Encode s

/-- `MinecraftHandler.create_packet`: VarInt packet id plus payload,
prefixed with the VarInt length of that body. -/
def create_packet (packetId : Nat) (data : List Nat) : List Nat :=
  writeVarintNat (writeVarintNat packetId ++ data).length ++
    (writeVarintNat packetId ++ data)

/-- `MinecraftHandler.create_disconnect_packet`: packet id `0x00` carrying
a String whose value is the JSON `json.dumps` of the object mapping
`"text"` to the kick reason. -/
def create_disconnect_packet (reason : List Nat) : List Nat :=
  create_packet 0x00 (write_string (jsonDumpsText reason))

/-- The fields of a parsed Protocol-A handshake
(`MinecraftHandler.parse_handshake_packet`). -/
structure HandshakeInfo where
  protocolVersion : Nat
  serverAddress : List Nat
  serverPort : Nat
  nextState : Nat
deriving DecidableEq, Repr

/-- `MinecraftHandler.handle_client_connection` at the level of a parsed
handshake (`none` models an unreadable or invalid handshake): returns the
protocol packets written to the client and the `is_login` flag.
`next_state = 1` answers with the status-response packet (its JSON depends
on the wall clock and configuration, so it is the parameter `statusJson`,
keyed by `is_starting`), `next_state = 2` answers with the disconnect
packet built from the configured kick message, and anything else sends
nothing. -/
def handle_client_connection (kick : List Nat) (statusJson : Bool → List Nat)
    (handshake : Option HandshakeInfo) (isStarting : Bool) :
    List (List Nat) × Bool :=
  match handshake with
  | none => ([], false)
  | some info =>
    if info.nextState = 1 then
      ([create_packet 0x00 (write_string (statusJson isStarting))], false)
    else if info.nextState = 2 then
      ([create_disconnect_packet kick], true)
    else ([], false)

/-- `ProxyManager._handle_minecraft_connection`: count the connection; in
Proxying splice the sockets (the proxy itself emits no protocol packets);
otherwise run the protocol simulation and, when it reports a login attempt
while the coordinator is Offline, wake the server.  Returns the updated
coordinator, the packets sent to the client and the coordinator effect
trace. -/
def handleMinecraftConnection (s : Coord) (t : Nat) (kick : List Nat)
    (statusJson : Bool → List Nat) (handshake : Option HandshakeInfo)
    (sendOk : Nat → String → Nat → Bool) (broadcastIp targetIp : String) :
    Coord × List (List Nat) × List Effect :=
  let s0 : Coord := { s with minecraftConnections := s.minecraftConnections + 1 }
  let isStarting : Bool :=
    s0.currentState = ProxyState.waking ∨ s0.currentState = ProxyState.starting
  if s0.currentState = ProxyState.proxying then (s0, [], [])
  else
    let hc := handle_client_connection kick statusJson handshake isStarting
    if hc.2 ∧ s0.currentState = ProxyState.offline then
      let w := wakeServer s0 t sendOk broadcastIp targetIp
      (w.1, hc.1, w.2.1)
    else (s0, hc.1, [])

/-- The `(old, new)` state-change notifications contained in an effect
trace, in order. -/
def callbackTransitions (effects : List Effect) :
    List (ProxyState × ProxyState) :=
  effects.filterMap fun e =>
    match e with
    | .stateChangeCallback a b => some (a, b)
    | _ => none

/-- C5: a handshake with `next_state = 2` while the coordinator is Offline
sends exactly one packet — the disconnect packet, whose body is packet id
`0x00` followed by a String containing the JSON `\x7b"text": kick\x7d` —
and fires a wake: the first coordinator transition is Offline→Waking and
the wake-attempt counter is incremented. -/
theorem joinWhileOfflineDisconnectsAndWakes (s : Coord) (t : Nat)
    (kick : List Nat) (statusJson : Bool → List Nat) (info : HandshakeInfo)
    (sendOk : Nat → String → Nat → Bool) (broadcastIp targetIp : String)
    (hs : s.currentState = ProxyState.offline) (hn : info.nextState = 2) :
    (handleMinecraftConnection s t kick statusJson (some info) sendOk
        broadcastIp targetIp).2.1 = [create_disconnect_packet kick] ∧
    create_disconnect_packet kick =
      writeVarintNat ((write_string (jsonDumpsText kick)).length + 1) ++
        0x00 :: write_string (jsonDumpsText kick) ∧
    (callbackTransitions (handleMinecraftConnection s t kick statusJson
        (some info) sendOk broadcastIp targetIp).2.2).head? =
      some (ProxyState.offline, ProxyState.waking) ∧
    (handleMinecraftConnection s t kick statusJson (some info) sendOk
        broadcastIp targetIp).1.wakeAttempts = s.wakeAttempts + 1 := by
  have hpacket : create_disconnect_packet kick =
      writeVarintNat ((write_string (jsonDumpsText kick)).length + 1) ++
        0x00 :: write_string (jsonDumpsText kick) := by
    have hz : writeVarintNat 0x00 = [0x00] := by rw [writeVarintNat]; simp
    rw [create_disconnect_packet, create_packet, hz]
    simp
  refine ⟨?_, hpacket, ?_, ?_⟩ <;>
    by_cases hw : wakeServerWithRetry sendOk broadcastIp targetIp 3 <;>
      simp [handleMinecraftConnection, handle_client_connection, hs, hn,
        wakeServer, hw, transitionToState, enterWakingState,
        enterStartingState, enterOfflineState, callbackTransitions]

/-- C5 witness: the statement at a concrete Offline coordinator, kick
message and join handshake. -/
theorem joinWhileOfflineDisconnectsAndWakesWitness :
    (handleMinecraftConnection initCoord 7 [72, 105] (fun _ => [])
        (some ⟨763, [], 25565, 2⟩) (fun _ _ _ => false) "b" "t").2.1 =
      [create_disconnect_packet [72, 105]] ∧
    create_disconnect_packet [72, 105] =
      writeVarintNat ((write_string (jsonDumpsText [72, 105])).length + 1) ++
        0x00 :: write_string (jsonDumpsText [72, 105]) ∧
    (callbackTransitions (handleMinecraftConnection initCoord 7 [72, 105]
        (fun _ => []) (some ⟨763, [], 25565, 2⟩) (fun _ _ _ => false)
        "b" "t").2.2).head? =
      some (ProxyState.offline, ProxyState.waking) ∧
    (handleMinecraftConnection initCoord 7 [72, 105] (fun _ => [])
        (some ⟨763, [], 25565, 2⟩) (fun _ _ _ => false)
        "b" "t").1.wakeAttempts = initCoord.wakeAttempts + 1 :=
  joinWhileOfflineDisconnectsAndWakes initCoord 7 [72, 105] (fun _ => [])
    ⟨763, [], 25565, 2⟩ (fun _ _ _ => false) "b" "t" rfl rfl

/-- C4: when every send to every destination fails in all three retry
rounds, a join attempt in Offline leaves the coordinator back in Offline
after visiting exactly Waking (transitions Offline→Waking→Offline), with
`wake_attempts` incremented by exactly one and `successful_wakes`
unchanged. -/
theorem exhaustedWakeRevertsToOffline (s : Coord) (t : Nat)
    (kick : List Nat) (statusJson : Bool → List Nat) (info : HandshakeInfo)
    (sendOk : Nat → String → Nat → Bool) (broadcastIp targetIp : String)
    (hs : s.currentState = ProxyState.offline) (hn : info.nextState = 2)
    (hfail : ∀ i d p, sendOk i d p = false) :
    (handleMinecraftConnection s t kick statusJson (some info) sendOk
        broadcastIp targetIp).1.currentState = ProxyState.offline ∧
    (handleMinecraftConnection s t kick statusJson (some info) sendOk
        broadcastIp targetIp).1.wakeAttempts = s.wakeAttempts + 1 ∧
    (handleMinecraftConnection s t kick statusJson (some info) sendOk
        broadcastIp targetIp).1.successfulWakes = s.successfulWakes ∧
    callbackTransitions (handleMinecraftConnection s t kick statusJson
        (some info) sendOk broadcastIp targetIp).2.2 =
      [(ProxyState.offline, ProxyState.waking),
       (ProxyState.waking, ProxyState.offline)] := by
  have hw := wakeServerWithRetry_allFail sendOk broadcastIp targetIp 3 hfail
  refine ⟨?_, ?_, ?_, ?_⟩ <;>
    simp [handleMinecraftConnection, handle_client_connection, hs, hn,
      wakeServer, hw, transitionToState, enterWakingState,
      enterOfflineState, callbackTransitions]

/-- C4 witness: the statement at a concrete Offline coordinator with an
always-failing send oracle. -/
theorem exhaustedWakeRevertsToOfflineWitness :
    (handleMinecraftConnection initCoord 9 [] (fun _ => [])
        (some ⟨763, [], 25565, 2⟩) (fun _ _ _ => false) "b" "t").1.currentState =
      ProxyState.offline ∧
    (handleMinecraftConnection initCoord 9 [] (fun _ => [])
        (some ⟨763, [], 25565, 2⟩) (fun _ _ _ => false) "b" "t").1.wakeAttempts =
      initCoord.wakeAttempts + 1 ∧
    (handleMinecraftConnection initCoord 9 [] (fun _ => [])
        (some ⟨763, [], 25565, 2⟩) (fun _ _ _ => false)
        "b" "t").1.successfulWakes = initCoord.successfulWakes ∧
    callbackTransitions (handleMinecraftConnection initCoord 9 [] (fun _ => [])
        (some ⟨763, [], 25565, 2⟩) (fun _ _ _ => false) "b" "t").2.2 =
      [(ProxyState.offline, ProxyState.waking),
       (ProxyState.waking, ProxyState.offline)] :=
  exhaustedWakeRevertsToOffline initCoord 9 [] (fun _ => [])
    ⟨763, [], 25565, 2⟩ (fun _ _ _ => false) "b" "t" rfl rfl
    (fun _ _ _ => rfl)

/-- A network probe performed by the monitor against the target host. -/
inductive Probe where
  | tcp (port : Nat)
  | udp (port : Nat)
deriving DecidableEq, Repr

/-- The game-port configuration read by `ServerMonitor.__init__`. -/
structure MonitorConfig where
  minecraftEnabled : Bool
  minecraftPort : Nat
  satisfactoryEnabled : Bool
  satisfactoryPorts : List Nat
deriving DecidableEq, Repr

/-- The label attached to each entry of the `checks` list built by
`comprehensive_server_check` (the strings `"ping"`,
`"minecraft_tcp_<port>"` and `"satisfactory_udp_<port>"`). -/
inductive CheckTag where
  | ping
  | minecraftTcp (port : Nat)
  | satisfactoryUdp (port : Nat)
deriving DecidableEq, Repr

/-- Whether the check's name contains `"tcp_"` or `"udp_"`: true exactly
for the game-port checks. -/
def CheckTag.isGamePort : CheckTag → Bool
  | .ping => false
  | .minecraftTcp _ => true
  | .satisfactoryUdp _ => true

/-- Whether the check's name contains `"minecraft_tcp_"`. -/
def CheckTag.isMinecraftTcp : CheckTag → Bool
  | .minecraftTcp _ => true
  | _ => false

/-- `ServerMonitor.check_server_reachable`: a single TCP connect to the
hardcoded port 25565 ("Minecraft port only"), reachable iff the connect
succeeds within the timeout.  `tcpOk port` is the outcome of a TCP connect
to `(target_ip, port)`; the probes performed are returned alongside. -/
def check_server_reachable (tcpOk : Nat → Bool) : Bool × List Probe :=
  (tcpOk 25565, [Probe.tcp 25565])

/-- `ServerMonitor.check_port_open`: a TCP connect, or for `"udp"` a
connected UDP socket (which the code itself notes is not reliable);
any other protocol string returns `False`. -/
def check_port_open (tcpOk udpOk : Nat → Bool) (port : Nat)
    (protocol : String) : Bool × List Probe :=
  if protocol = "tcp" then (tcpOk port, [Probe.tcp port])
  else if protocol = "udp" then (udpOk port, [Probe.udp port])
  else (false, [])

/-- `ServerMonitor.comprehensive_server_check`: the initial hardcoded TCP
reachability probe, short-circuiting on failure; then a TCP check of the
configured Protocol-A port when Protocol-A is enabled (and its port is
non-zero) and UDP checks of the three Protocol-B ports when Protocol-B is
enabled; the verdict is game-specific: Protocol-A only requires the
configured-port TCP check, Protocol-B only requires just the initial
probe, otherwise the initial probe plus any game-port check. -/
def comprehensive_server_check (cfg : MonitorConfig)
    (tcpOk udpOk : Nat → Bool) : Bool × List Probe :=
  let ping := check_server_reachable tcpOk
  if ¬ping.1 then (false, ping.2)
  else
    let mc : List (CheckTag × Bool) × List Probe :=
      if cfg.minecraftEnabled ∧ cfg.minecraftPort ≠ 0 then
        let c := check_port_open tcpOk udpOk cfg.minecraftPort "tcp"
        ([(CheckTag.minecraftTcp cfg.minecraftPort, c.1)], c.2)
      else ([], [])
    let sat : List (CheckTag × Bool) × List Probe :=
      if cfg.satisfactoryEnabled then
        (cfg.satisfactoryPorts.map fun p =>
          (CheckTag.satisfactoryUdp p, (check_port_open tcpOk udpOk p "udp").1),
         (cfg.satisfactoryPorts.map fun p =>
           (check_port_open tcpOk udpOk p "udp").2).flatten)
      else ([], [])
    let checks : List (CheckTag × Bool) := (CheckTag.ping, ping.1) :: mc.1 ++ sat.1
    let gamePortsAvailable := checks.any fun c => c.1.isGamePort && c.2
    let probes := ping.2 ++ mc.2 ++ sat.2
    if cfg.minecraftEnabled ∧ ¬cfg.satisfactoryEnabled then
      (checks.any fun c => c.1.isMinecraftTcp && c.2, probes)
    else if cfg.satisfactoryEnabled ∧ ¬cfg.minecraftEnabled then
      (ping.1, probes)
    else
      (ping.1 && gamePortsAvailable, probes)

/-- The default game-port configuration: both protocols enabled, Protocol-A
on 25565, Protocol-B on 7777/15000/15777. -/
def defaultMonitorConfig : MonitorConfig :=
  { minecraftEnabled := true, minecraftPort := 25565,
    satisfactoryEnabled := true, satisfactoryPorts := [7777, 15000, 15777] }

/-- C2 counterexample: with the default configuration and all connects
succeeding, one probe cycle performs UDP probes (port 7777 among them) and
two TCP connects, not exactly one TCP connect and no UDP. -/
theorem proberPerformsUdpProbes :
    Probe.udp 7777 ∈ (comprehensive_server_check defaultMonitorConfig
      (fun _ => true) (fun _ => true)).2 ∧
    ((comprehensive_server_check defaultMonitorConfig
      (fun _ => true) (fun _ => true)).2.countP
        fun pr => match pr with | Probe.tcp _ => true | _ => false) = 2 := by
  decide

/-- Flattening singleton lists is mapping. -/
theorem flattenMapSingleton {α β : Type} (f : α → β) (l : List α) :
    (l.map fun a => [f a]).flatten = l.map f := by
  induction l with
  | nil => rfl
  | cons a l ih => simp [ih]

/-- The game-port flag of each check tag (the `"tcp_"`/`"udp_"` substring
tests of `comprehensive_server_check`), by constructor. -/
theorem isGamePort_ping : CheckTag.ping.isGamePort = false := rfl

/-- The Protocol-A TCP check counts as a game-port check. -/
theorem isGamePort_mcTcp (p : Nat) :
    (CheckTag.minecraftTcp p).isGamePort = true := rfl

/-- The Protocol-B UDP check counts as a game-port check. -/
theorem isGamePort_satUdp (p : Nat) :
    (CheckTag.satisfactoryUdp p).isGamePort = true := rfl

/-- The ping check is not a Protocol-A TCP check. -/
theorem isMinecraftTcp_ping : CheckTag.ping.isMinecraftTcp = false := rfl

/-- The Protocol-A TCP check is recognized as such. -/
theorem isMinecraftTcp_mcTcp (p : Nat) :
    (CheckTag.minecraftTcp p).isMinecraftTcp = true := rfl

/-- The Protocol-B UDP check is not a Protocol-A TCP check. -/
theorem isMinecraftTcp_satUdp (p : Nat) :
    (CheckTag.satisfactoryUdp p).isMinecraftTcp = false := rfl

/-- Scanning the tagged Protocol-B check results for a successful game-port
check is scanning the UDP outcomes. -/
theorem anySatUdpTags (udpOk : Nat → Bool) (l : List Nat) :
    ((l.map fun p => (CheckTag.satisfactoryUdp p, udpOk p)).any fun c =>
      c.1.isGamePort && c.2) = l.any udpOk := by
  induction l with
  | nil => rfl
  | cons a l ih =>
    rw [List.map_cons, List.any_cons, List.any_cons, ih]
    simp [isGamePort_satUdp]

/-- C2 (amended): each probe cycle first TCP-connects to
`(target_ip, 25565)` (hardcoded) and is classified unreachable iff that
fails; when it succeeds, the cycle additionally TCP-probes the configured
Protocol-A port if Protocol-A is enabled and UDP-probes the Protocol-B
ports if Protocol-B is enabled, and the verdict is: Protocol-A only — the
configured-port TCP probe; Protocol-B only — the initial probe alone;
otherwise the initial probe together with some successful game-port
probe. -/
theorem proberClassification (cfg : MonitorConfig) (tcpOk udpOk : Nat → Bool) :
    (tcpOk 25565 = false →
      comprehensive_server_check cfg tcpOk udpOk = (false, [Probe.tcp 25565])) ∧
    (tcpOk 25565 = true →
      (comprehensive_server_check cfg tcpOk udpOk).2 =
        Probe.tcp 25565 ::
          ((if cfg.minecraftEnabled ∧ cfg.minecraftPort ≠ 0 then
              [Probe.tcp cfg.minecraftPort] else []) ++
           (if cfg.satisfactoryEnabled then
              cfg.satisfactoryPorts.map Probe.udp else [])) ∧
      (comprehensive_server_check cfg tcpOk udpOk).1 =
        (if cfg.minecraftEnabled ∧ ¬cfg.satisfactoryEnabled then
          decide (cfg.minecraftPort ≠ 0) && tcpOk cfg.minecraftPort
         else if cfg.satisfactoryEnabled ∧ ¬cfg.minecraftEnabled then
          true
         else
          (decide (cfg.minecraftEnabled ∧ cfg.minecraftPort ≠ 0) &&
             tcpOk cfg.minecraftPort) ||
          (cfg.satisfactoryEnabled && cfg.satisfactoryPorts.any udpOk))) := by
  constructor
  · intro h
    simp [comprehensive_server_check, check_server_reachable, h]
  · intro h
    by_cases hmc : cfg.minecraftEnabled ∧ cfg.minecraftPort ≠ 0 <;>
      by_cases hsat : cfg.satisfactoryEnabled <;>
        by_cases hmce : cfg.minecraftEnabled <;>
          simp_all [comprehensive_server_check, check_server_reachable,
            check_port_open, flattenMapSingleton, anySatUdpTags,
            isGamePort_ping, isGamePort_mcTcp, isGamePort_satUdp,
            isMinecraftTcp_ping, isMinecraftTcp_mcTcp, isMinecraftTcp_satUdp]

/-- C2 witness: the amended classification at the default configuration
with a succeeding initial probe. -/
theorem proberClassificationWitness :
    (comprehensive_server_check defaultMonitorConfig
      (fun _ => true) (fun _ => false)).2 =
      Probe.tcp 25565 ::
        ((if defaultMonitorConfig.minecraftEnabled ∧
            defaultMonitorConfig.minecraftPort ≠ 0 then
            [Probe.tcp defaultMonitorConfig.minecraftPort] else []) ++
         (if defaultMonitorConfig.satisfactoryEnabled then
            defaultMonitorConfig.satisfactoryPorts.map Probe.udp else [])) ∧
    (comprehensive_server_check defaultMonitorConfig
      (fun _ => true) (fun _ => false)).1 =
      (if defaultMonitorConfig.minecraftEnabled ∧
          ¬defaultMonitorConfig.satisfactoryEnabled then
        decide (defaultMonitorConfig.minecraftPort ≠ 0) && true
       else if defaultMonitorConfig.satisfactoryEnabled ∧
          ¬defaultMonitorConfig.minecraftEnabled then
        true
       else
        (decide (defaultMonitorConfig.minecraftEnabled ∧
           defaultMonitorConfig.minecraftPort ≠ 0) && true) ||
        (defaultMonitorConfig.satisfactoryEnabled &&
          defaultMonitorConfig.satisfactoryPorts.any (fun _ => false))) :=
  (proberClassification defaultMonitorConfig
    (fun _ => true) (fun _ => false)).2 rfl

/-- The dictionary key `f"\x7baddr[0]\x7d:\x7baddr[1]\x7d"` used by
`SatisfactoryProtocol` per source address. -/
def clientId (addr : String × Nat) : String :=
  addr.1 ++ ":" ++ toString addr.2

/-- Python dict assignment on an association list: update the entry in
place or append a new one. -/
def setEntry (l : List (String × Nat)) (k : String) (v : Nat) :
    List (String × Nat) :=
  if (l.lookup k).isSome then
    l.map fun kv => if kv.1 = k then (k, v) else kv
  else l ++ [(k, v)]

/-- `SatisfactoryProtocol._cleanup_old_connections`: drop entries whose
`last_seen` is older than `connection_timeout = 300` seconds. -/
def cleanupOldConnections (l : List (String × Nat)) (now : Nat) :
    List (String × Nat) :=
  l.filter fun kv => ¬kv.2 < now - 300

/-- `SatisfactoryHandler.forward_packet`: re-check the forwarding flag,
then send the datagram to `(target_ip, port)` over a fresh UDP socket. -/
def forward_packet (forwardingActive : Bool) (targetIp : String)
    (port : Nat) (data : List Nat) : Option (String × Nat × List Nat) :=
  if ¬forwardingActive then none else some (targetIp, port, data)

/-- The outcome of handling one datagram: the updated per-port connection
set, the traffic-callback invocation for a new source (carrying the port
and source address), and the forwarded send, if any. -/
structure DatagramResult where
  activeConnections : List (String × Nat)
  newClientEvent : Option (Nat × (String × Nat))
  forwarded : Option (String × Nat × List Nat)
deriving DecidableEq, Repr

/-- `SatisfactoryProtocol.datagram_received`: update the source's
`last_seen`; fire the traffic callback iff the source is not currently in
the active set (before expiry); expire stale entries; then forward the
datagram unchanged to `(target_ip, same_port)` when the forwarding flag is
set, and drop it otherwise. -/
def datagram_received (forwardingActive : Bool) (targetIp : String)
    (port : Nat) (conns : List (String × Nat)) (now : Nat)
    (data : List Nat) (addr : String × Nat) : DatagramResult :=
  let cid := clientId addr
  let isNew := (conns.lookup cid).isNone
  let conns1 := setEntry conns cid now
  let conns2 := cleanupOldConnections conns1 now
  { activeConnections := conns2,
    newClientEvent := if isNew then some (port, addr) else none,
    forwarded :=
      if forwardingActive then forward_packet forwardingActive targetIp port data
      else none }

/-- `ProxyManager._handle_satisfactory_traffic`: count the flow and wake
the server when the coordinator is Offline. -/
def handleSatisfactoryTraffic (s : Coord) (t : Nat) (port : Nat)
    (sendOk : Nat → String → Nat → Bool) (broadcastIp targetIp : String) :
    Coord × List Effect :=
  let s0 : Coord :=
    { s with satisfactoryConnections := s.satisfactoryConnections + 1 }
  if s0.currentState = ProxyState.offline then
    let w := wakeServer s0 t sendOk broadcastIp targetIp
    (w.1, w.2.1)
  else (s0, [])

/-- Completion of the `_wait_for_server_online` task spawned on entry to
Starting: on an Online observation count the successful wake and move to
Proxying, on timeout fall back to Offline. -/
def waitForServerOnlineDone (s : Coord) (t : Nat) (online : Bool) : Coord :=
  if online then
    (transitionToState
      { s with successfulWakes := s.successfulWakes + 1 } t .proxying).1
  else (transitionToState s t .offline).1

/-- `ProxyManager.shutdown`: transition to Stopping, stop the monitor and
the listeners, and release the IP. -/
def shutdownStep (s : Coord) (t : Nat) : Coord :=
  let s1 := (transitionToState s t .stopping).1
  { s1 with ipBound := false }

/-- The external stimuli the coordinator reacts to. -/
inductive Event where
  | health (old new : ServerState)
  | minecraftConn (kick : List Nat) (statusJson : Bool → List Nat)
      (handshake : Option HandshakeInfo) (sendOk : Nat → String → Nat → Bool)
  | satisfactoryTraffic (port : Nat) (sendOk : Nat → String → Nat → Bool)
  | bootWaitDone (online : Bool)
  | shutdown

/-- One coordinator step on an incoming event at time `t`. -/
def step (broadcastIp targetIp : String) (t : Nat) (s : Coord) :
    Event → Coord
  | .health old new => (onServerStateChange s t old new).1
  | .minecraftConn kick statusJson handshake sendOk =>
      (handleMinecraftConnection s t kick statusJson handshake sendOk
        broadcastIp targetIp).1
  | .satisfactoryTraffic port sendOk =>
      (handleSatisfactoryTraffic s t port sendOk broadcastIp targetIp).1
  | .bootWaitDone online => waitForServerOnlineDone s t online
  | .shutdown => shutdownStep s t

/-- Running the coordinator over a timed event trace. -/
def run (broadcastIp targetIp : String) (s : Coord)
    (events : List (Nat × Event)) : Coord :=
  events.foldl (fun acc e => step broadcastIp targetIp e.1 acc e.2) s

/-- The inductive invariant relating the forwarding flag to the state: the
flag tracks `state = Proxying` except that entry into Stopping leaves it
unchanged. -/
def FlagInv (s : Coord) : Prop :=
  s.currentState = ProxyState.stopping ∨
    s.forwardingActive = decide (s.currentState = ProxyState.proxying)

/-- Every requested transition preserves the flag invariant. -/
theorem flagInv_transition (s : Coord) (t : Nat) (ns : ProxyState)
    (h : FlagInv s) : FlagInv (transitionToState s t ns).1 := by
  by_cases he : ns = s.currentState
  · simpa [transitionToState, he] using h
  · cases ns <;>
      simp [FlagInv, transitionToState, he, enterOfflineState,
        enterWakingState, enterStartingState, enterProxyingState,
        enterStoppingState]

/-- `wakeServer` preserves the flag invariant. -/
theorem flagInv_wakeServer (s : Coord) (t : Nat)
    (sendOk : Nat → String → Nat → Bool) (broadcastIp targetIp : String)
    (h : FlagInv s) :
    FlagInv (wakeServer s t sendOk broadcastIp targetIp).1 := by
  rw [wakeServer]
  by_cases hs : s.currentState ≠ ProxyState.offline
  · simpa [hs] using h
  · have h1 : FlagInv
        { s with wakeAttempts := s.wakeAttempts + 1, lastWakeTime := some t } :=
      h
    by_cases hw : wakeServerWithRetry sendOk broadcastIp targetIp 3 <;>
      simp only [hs, hw, if_false, if_true, ite_false, ite_true, if_neg
        (by simpa using hs : ¬s.currentState ≠ ProxyState.offline)] <;>
      exact flagInv_transition _ t _ (flagInv_transition _ t _ h1)

/-- Every event step preserves the flag invariant. -/
theorem flagInv_step (broadcastIp targetIp : String) (t : Nat) (s : Coord)
    (e : Event) (h : FlagInv s) :
    FlagInv (step broadcastIp targetIp t s e) := by
  cases e with
  | health old new =>
    simp only [step, onServerStateChange]
    split
    · exact flagInv_transition s t _ h
    · split
      · exact flagInv_transition s t _ h
      · exact h
  | minecraftConn kick statusJson handshake sendOk =>
    simp only [step, handleMinecraftConnection]
    have h0 : FlagInv { s with
        minecraftConnections := s.minecraftConnections + 1 } := h
    split
    · exact h0
    · split
      · exact flagInv_wakeServer _ t sendOk broadcastIp targetIp h0
      · exact h0
  | satisfactoryTraffic port sendOk =>
    simp only [step, handleSatisfactoryTraffic]
    have h0 : FlagInv { s with
        satisfactoryConnections := s.satisfactoryConnections + 1 } := h
    split
    · exact flagInv_wakeServer _ t sendOk broadcastIp targetIp h0
    · exact h0
  | bootWaitDone online =>
    simp only [step, waitForServerOnlineDone]
    split
    · exact flagInv_transition _ t _ h
    · exact flagInv_transition _ t _ h
  | shutdown =>
    simp only [step, shutdownStep]
    exact flagInv_transition s t .stopping h

/-- The flag invariant holds in every reachable coordinator state. -/
theorem flagInv_run (broadcastIp targetIp : String)
    (events : List (Nat × Event)) : ∀ s : Coord, FlagInv s →
    FlagInv (run broadcastIp targetIp s events) := by
  induction events with
  | nil => intro s h; exact h
  | cons e es ih =>
    intro s h
    exact ih _ (flagInv_step broadcastIp targetIp e.1 s e.2 h)

/-- The event trace reaching Stopping from Proxying: a join attempt whose
wake succeeds, an Online health report while Starting, then shutdown. -/
def stoppingTrace : List (Nat × Event) :=
  [(1, .minecraftConn [] (fun _ => []) (some ⟨763, [], 25565, 2⟩)
      (fun _ _ _ => true)),
   (2, .health .offline .online),
   (3, .shutdown)]

/-- C3 counterexample: after Proxying→Stopping (shutdown while proxying)
the coordinator is in Stopping with UDP forwarding still enabled — the
transition out of Proxying to Stopping does not disable forwarding, so
forwarding-iff-Proxying fails at this observable moment. -/
theorem forwardingLeftEnabledInStopping :
    (run "b" "t" initCoord stoppingTrace).currentState =
      ProxyState.stopping ∧
    (run "b" "t" initCoord stoppingTrace).forwardingActive = true := by
  decide

/-- C3 (amended): entry into Offline, Waking or Starting disables
forwarding and entry into Proxying enables it, so in every reachable state
other than Stopping the forwarding flag is set iff the state is Proxying;
the transition into Stopping leaves the flag unchanged (the listeners are
closed during shutdown instead). -/
theorem forwardingMatchesProxyingOutsideStopping
    (broadcastIp targetIp : String) (events : List (Nat × Event))
    (h : (run broadcastIp targetIp initCoord events).currentState ≠
      ProxyState.stopping) :
    (run broadcastIp targetIp initCoord events).forwardingActive = true ↔
      (run broadcastIp targetIp initCoord events).currentState =
        ProxyState.proxying := by
  have hinv := flagInv_run broadcastIp targetIp events initCoord
    (Or.inr (by decide))
  rcases hinv with hinv | hinv
  · exact absurd hinv h
  · rw [hinv]
    constructor
    · intro hd
      exact of_decide_eq_true hd
    · intro hp
      rw [decide_eq_true hp]

/-- C3 witness: the amended statement on the empty trace (the freshly
started Offline coordinator). -/
theorem forwardingMatchesProxyingOutsideStoppingWitness :
    (run "b" "t" initCoord []).forwardingActive = true ↔
      (run "b" "t" initCoord []).currentState = ProxyState.proxying :=
  forwardingMatchesProxyingOutsideStopping "b" "t" [] (by decide)

/-- C9 counterexample: in the reachable Stopping-after-Proxying state a
received datagram is forwarded to the host, not dropped, although the
state is not Proxying. -/
theorem datagramForwardedWhileStopping :
    (run "b" "t" initCoord stoppingTrace).currentState ≠
      ProxyState.proxying ∧
    (datagram_received (run "b" "t" initCoord stoppingTrace).forwardingActive
        "t" 7777 [] 100 [1, 2, 3] ("c", 50000)).forwarded =
      some ("t", 7777, [1, 2, 3]) := by
  decide

/-- C9 (amended): for every received datagram, a client-present event
carrying the port and source address is emitted iff the source is not
currently in the active set, regardless of mode; the datagram is sent
unchanged to `(target_ip, same_port)` iff the forwarding flag is set
(which coincides with state = Proxying except in Stopping entered from
Proxying, where the flag remains set), and is dropped otherwise. -/
theorem datagramHandling (forwardingActive : Bool) (targetIp : String)
    (port : Nat) (conns : List (String × Nat)) (now : Nat)
    (data : List Nat) (addr : String × Nat) :
    (datagram_received forwardingActive targetIp port conns now data
        addr).newClientEvent =
      (if (conns.lookup (clientId addr)).isNone then some (port, addr)
       else none) ∧
    (datagram_received forwardingActive targetIp port conns now data
        addr).forwarded =
      (if forwardingActive then some (targetIp, port, data) else none) := by
  refine ⟨rfl, ?_⟩
  by_cases hf : forwardingActive <;>
    simp [datagram_received, forward_packet, hf]

/-- C10: requesting a transition to the state the coordinator is already in
is a no-op: the coordinator (state, change time, statistics, flags) is
returned unchanged and no entry action or state-change callback is
performed. -/
theorem transitionToSameStateIsNoop (s : Coord) (t : Nat) :
    transitionToState s t s.currentState = (s, []) := by
  simp [transitionToState]

end WolProxy
